import Mathlib

/-!
Verification of the gate-geometry model and the per-gate crossing state
machine of `NavigationScoringPlugin`
(`src/vmrc_gazebo/src/navigation_scoring_plugin.cc`).

The embedding follows the source file: `gazebo::math::Vector3` becomes
`Vec3` over the reals, the gate's `gazebo::math::Pose` becomes `Pose`
(the plugin only ever sets the gate orientation through
`pose.Set(middle, Vector3(0, 0, yaw))`, a pure yaw rotation, so the
orientation is embedded by its yaw angle), and the loop body of
`NavigationScoringPlugin::Update` becomes `updateGate`.  A separate
NaN-propagating scalar type `NReal` models the IEEE `double` behaviour of
`Gate::IsPoseInGate` on degenerate (NaN) geometry, where every comparison
with a NaN operand evaluates to false.
-/

namespace NavScoring

noncomputable section

/-- A 3D vector with real coordinates, embedding `gazebo::math::Vector3`. -/
structure Vec3 where
  x : ℝ
  y : ℝ
  z : ℝ

instance : Add Vec3 :=
  ⟨fun a b => ⟨a.x + b.x, a.y + b.y, a.z + b.z⟩⟩

instance : Sub Vec3 :=
  ⟨fun a b => ⟨a.x - b.x, a.y - b.y, a.z - b.z⟩⟩

instance : Neg Vec3 :=
  ⟨fun a => ⟨-a.x, -a.y, -a.z⟩⟩

/-- Componentwise division of a vector by a scalar (`Vector3::operator/`). -/
instance : HDiv Vec3 ℝ Vec3 :=
  ⟨fun a s => ⟨a.x / s, a.y / s, a.z / s⟩⟩

/-- Length of a vector (`Vector3::GetLength`). -/
def Vec3.GetLength (v : Vec3) : ℝ :=
  Real.sqrt (v.x ^ 2 + v.y ^ 2 + v.z ^ 2)

/-- Normalization (`Vector3::Normalize`): divide by the length unless it is
zero, in which case the vector is returned unchanged. -/
def Vec3.Normalize (v : Vec3) : Vec3 :=
  if v.GetLength = 0 then v
  else ⟨v.x / v.GetLength, v.y / v.GetLength, v.z / v.GetLength⟩

/-- Cross product (`Vector3::Cross`). -/
def Vec3.Cross (a b : Vec3) : Vec3 :=
  ⟨a.y * b.z - a.z * b.y, a.z * b.x - a.x * b.z, a.x * b.y - a.y * b.x⟩

/-- Distance between two points (`Vector3::Distance`). -/
def Vec3.Distance (a b : Vec3) : ℝ :=
  Real.sqrt ((a.x - b.x) ^ 2 + (a.y - b.y) ^ 2 + (a.z - b.z) ^ 2)

/-- The constant `gazebo::math::Vector3::UnitZ`. -/
def unitZ : Vec3 := ⟨0, 0, 1⟩

/-- The C library function `atan2(y, x)`, embedded over the reals as the
argument of the complex number `x + y i` (range `(-π, π]`, `atan2 0 0 = 0`). -/
def atan2 (y x : ℝ) : ℝ :=
  Complex.arg ⟨x, y⟩

/-- The gate's pose: a position together with a yaw angle.  The plugin only
ever writes the gate pose as `pose.Set(middle, Vector3(0, 0, yaw))`, i.e. a
yaw-only orientation, so the quaternion is embedded by its yaw. -/
structure Pose where
  pos : Vec3
  yaw : ℝ

/-- A quaternion with real components, embedding `gazebo::math::Quaternion`;
used only as the orientation part of the vehicle's world pose, which
`Gate::IsPoseInGate` receives but never reads. -/
structure Quat where
  w : ℝ
  x : ℝ
  y : ℝ
  z : ℝ

/-- The vehicle's world pose (`gazebo::math::Pose`): position and full
orientation. -/
structure WorldPose where
  pos : Vec3
  rot : Quat

/-- Rotation of a vector by a yaw-only rotation about the vertical axis. -/
def yawRotateVector (yaw : ℝ) (v : Vec3) : Vec3 :=
  ⟨Real.cos yaw * v.x - Real.sin yaw * v.y,
   Real.sin yaw * v.x + Real.cos yaw * v.y,
   v.z⟩

/-- The five values of `NavigationScoringPlugin::GateState`. -/
inductive GateState where
  | VEHICLE_OUTSIDE : GateState
  | VEHICLE_BEFORE : GateState
  | VEHICLE_AFTER : GateState
  | CROSSED : GateState
  | INVALID : GateState
deriving DecidableEq, Fintype

open GateState

/-- A gate: derived pose and width together with the crossing state
(the fields of `NavigationScoringPlugin::Gate` mutated by the plugin). -/
structure Gate where
  pose : Pose
  width : ℝ
  state : GateState

/-- Modelled from the spec: the header `navigation_scoring_plugin.hh`, which
declares the default value of the `state` member of `Gate`, is not available
under `src/`.  The spec requires the state to be "initialized by evaluating
geometry against the vehicle's first observed pose", i.e. the first update
must leave the gate in the classification of the first pose; this forces a
default that triggers neither crossing rule of the transition table, and the
neutral such value among the spec's five states is `VEHICLE_OUTSIDE`. -/
def initialGateState : GateState := VEHICLE_OUTSIDE

/-- Geometry refresh, `NavigationScoringPlugin::Gate::Update`.  The stored
marker model pointer together with its current `GetWorldPose().pos` is
embedded as an `Option Vec3`: `none` is a null pointer, `some p` a live
marker currently at world position `p`.  A null pointer on either side makes
the method return without touching the gate. -/
def Gate.Update (g : Gate) (leftMarkerPos rightMarkerPos : Option Vec3) : Gate :=
  match leftMarkerPos, rightMarkerPos with
  | some lp, some rp =>
      let v1 := (lp - rp).Normalize
      let v2 := Vec3.Cross unitZ v1
      let middle := (lp + rp) / (2 : ℝ)
      let yaw := atan2 v2.y v2.x
      { g with pose := ⟨middle, yaw⟩, width := lp.Distance rp }
  | _, _ => g

/-- The vehicle position transformed into the gate's frame, the first
statement of `Gate::IsPoseInGate`: subtract the gate position and rotate by
the inverse of the gate's (yaw-only) orientation. -/
def Gate.robotLocalPosition (g : Gate) (robotWorldPose : WorldPose) : Vec3 :=
  yawRotateVector (-g.pose.yaw) (robotWorldPose.pos - g.pose.pos)

/-- Classification of the vehicle pose, `Gate::IsPoseInGate`: inside the
door width (`fabs(y) <= width/2`) the sign of the local x coordinate
(`x >= 0`) separates AFTER from BEFORE; otherwise OUTSIDE. -/
def Gate.IsPoseInGate (g : Gate) (robotWorldPose : WorldPose) : GateState :=
  let p := g.robotLocalPosition robotWorldPose
  if |p.y| ≤ g.width / 2 then
    if p.x ≥ 0 then VEHICLE_AFTER else VEHICLE_BEFORE
  else VEHICLE_OUTSIDE

/-- The crossing-rule part of the loop body of
`NavigationScoringPlugin::Update` (lines 228-244): given the gate's previous
state and the current classification, produce the state written back. -/
def advance (prev cls : GateState) : GateState :=
  if cls = VEHICLE_AFTER ∧ prev = VEHICLE_BEFORE then CROSSED
  else if cls = VEHICLE_BEFORE ∧ prev = VEHICLE_AFTER then INVALID
  else cls

/-- One full iteration of the gate loop of `NavigationScoringPlugin::Update`:
gates already CROSSED or INVALID are skipped (`continue`); otherwise the
geometry is refreshed, the vehicle classified against it, and the crossing
rules applied. -/
def updateGate (g : Gate) (leftMarkerPos rightMarkerPos : Option Vec3)
    (robotPose : WorldPose) : Gate :=
  if g.state = CROSSED ∨ g.state = INVALID then g
  else
    let g2 := g.Update leftMarkerPos rightMarkerPos
    { g2 with state := advance g2.state (g2.IsPoseInGate robotPose) }

/-- The state effect of one loop iteration, on states alone: terminal states
are skipped, otherwise the crossing rules are applied to the classification. -/
def advanceGate (prev cls : GateState) : GateState :=
  if prev = CROSSED ∨ prev = INVALID then prev else advance prev cls

/-- Iterated state effect of feeding a sequence of classifications to one
gate over successive updates. -/
def runClassifications (s : GateState) (cs : List GateState) : GateState :=
  cs.foldl advanceGate s

/-- A real number extended with a NaN element, modelling the IEEE `double`
values that can reach `Gate::IsPoseInGate` through degenerate geometry.
Arithmetic propagates NaN; a comparison with a NaN operand is false. -/
inductive NReal where
  | nan : NReal
  | fin : ℝ → NReal

/-- NaN-propagating addition. -/
def NReal.add : NReal → NReal → NReal
  | fin a, fin b => fin (a + b)
  | _, _ => nan

/-- NaN-propagating subtraction. -/
def NReal.sub : NReal → NReal → NReal
  | fin a, fin b => fin (a - b)
  | _, _ => nan

/-- NaN-propagating multiplication. -/
def NReal.mul : NReal → NReal → NReal
  | fin a, fin b => fin (a * b)
  | _, _ => nan

/-- NaN-propagating negation. -/
def NReal.neg : NReal → NReal
  | fin a => fin (-a)
  | nan => nan

/-- NaN-propagating absolute value (`fabs`). -/
def NReal.fabs : NReal → NReal
  | fin a => fin |a|
  | nan => nan

/-- NaN-propagating cosine. -/
def NReal.cos : NReal → NReal
  | fin a => fin (Real.cos a)
  | nan => nan

/-- NaN-propagating sine. -/
def NReal.sin : NReal → NReal
  | fin a => fin (Real.sin a)
  | nan => nan

/-- NaN-propagating halving (division by the finite nonzero constant 2.0,
the only division in `Gate::IsPoseInGate`). -/
def NReal.half : NReal → NReal
  | fin a => fin (a / 2)
  | nan => nan

/-- A 3D vector of possibly-NaN coordinates. -/
structure Vec3N where
  x : NReal
  y : NReal
  z : NReal

/-- A gate pose with possibly-NaN position and yaw (a degenerate
`Gate::Update` can leave NaN in both). -/
structure PoseN where
  pos : Vec3N
  yaw : NReal

/-- Componentwise NaN-propagating vector difference. -/
def nSubV (a b : Vec3N) : Vec3N :=
  ⟨a.x.sub b.x, a.y.sub b.y, a.z.sub b.z⟩

/-- Yaw rotation over possibly-NaN scalars. -/
def nYawRotateVector (yaw : NReal) (v : Vec3N) : Vec3N :=
  ⟨(yaw.cos.mul v.x).sub (yaw.sin.mul v.y),
   (yaw.sin.mul v.x).add (yaw.cos.mul v.y),
   v.z⟩

/-- The local-frame vehicle position of `Gate::IsPoseInGate`, over
possibly-NaN scalars: subtract the gate position, rotate by the inverse of
the yaw. -/
def nRobotLocalPosition (gatePose : PoseN) (robotPos : Vec3N) : Vec3N :=
  nYawRotateVector gatePose.yaw.neg (nSubV robotPos gatePose.pos)

/-- The classification `Gate::IsPoseInGate` over possibly-NaN scalars.  An
IEEE comparison with a NaN operand is false: a NaN in `fabs(localY)` or in
`width/2` sends `fabs(localY) <= width/2` to its else branch
(VEHICLE_OUTSIDE), and a NaN in `localX` sends `localX >= 0.0` to its else
branch (VEHICLE_BEFORE); the match wildcards encode exactly those
false-on-NaN comparisons. -/
def IsPoseInGateN (gatePose : PoseN) (width : NReal) (robotPos : Vec3N) :
    GateState :=
  match (nRobotLocalPosition gatePose robotPos).y.fabs, width.half with
  | NReal.fin ay, NReal.fin hw =>
      if ay ≤ hw then
        match (nRobotLocalPosition gatePose robotPos).x with
        | NReal.fin px => if px ≥ 0 then VEHICLE_AFTER else VEHICLE_BEFORE
        | NReal.nan => VEHICLE_BEFORE
      else VEHICLE_OUTSIDE
  | _, _ => VEHICLE_OUTSIDE

/-- A concrete degenerate gate pose whose yaw is NaN, at the origin. -/
def poseN0 : PoseN := ⟨⟨NReal.fin 0, NReal.fin 0, NReal.fin 0⟩, NReal.nan⟩

/-- A concrete finite vehicle position. -/
def robotN0 : Vec3N := ⟨NReal.fin 1, NReal.fin 2, NReal.fin 0⟩

/-- The NaN-aware classification always returns one of the three
classification values. -/
theorem IsPoseInGateN_total (gp : PoseN) (w : NReal) (rp : Vec3N) :
    IsPoseInGateN gp w rp = VEHICLE_OUTSIDE ∨
    IsPoseInGateN gp w rp = VEHICLE_AFTER ∨
    IsPoseInGateN gp w rp = VEHICLE_BEFORE := by
  unfold IsPoseInGateN
  split
  · split
    · split
      · split
        · exact Or.inr (Or.inl rfl)
        · exact Or.inr (Or.inr rfl)
      · exact Or.inr (Or.inr rfl)
    · exact Or.inl rfl
  · exact Or.inl rfl

/-- A NaN local y coordinate makes the width comparison false, so the
classification collapses to VEHICLE_OUTSIDE. -/
theorem IsPoseInGateN_nan_outside (gp : PoseN) (w : NReal) (rp : Vec3N)
    (h : (nRobotLocalPosition gp rp).y = NReal.nan) :
    IsPoseInGateN gp w rp = VEHICLE_OUTSIDE := by
  unfold IsPoseInGateN
  rw [h]
  rfl

/-- A geometry refresh never touches the state field. -/
theorem Gate.Update_state (g : Gate) (lm rm : Option Vec3) :
    (g.Update lm rm).state = g.state := by
  cases lm <;> cases rm <;> rfl

/-- The state written by one loop iteration is exactly the state effect
`advanceGate` of the classification against the refreshed geometry. -/
theorem updateGate_state (g : Gate) (lm rm : Option Vec3) (robot : WorldPose) :
    (updateGate g lm rm robot).state =
      advanceGate g.state ((g.Update lm rm).IsPoseInGate robot) := by
  by_cases h : g.state = CROSSED ∨ g.state = INVALID
  · simp [updateGate, advanceGate, h]
  · simp [updateGate, advanceGate, h, Gate.Update_state]

/-- A fixed concrete gate used by the closed witness statements: pose at the
origin with yaw 0, width 0, state `initialGateState`. -/
def gate0 : Gate := ⟨⟨⟨0, 0, 0⟩, 0⟩, 0, initialGateState⟩

/-- The identity quaternion, used as a concrete vehicle orientation. -/
def quatId : Quat := ⟨1, 0, 0, 0⟩

/-- A fixed concrete gate of width 10 at the origin with yaw 0, used by the
closed witness statements. -/
def gate10 : Gate := ⟨⟨⟨0, 0, 0⟩, 0⟩, 10, initialGateState⟩

/-- Midpoint of two points, as the spec words the gate center. -/
def midpointSpec (a b : Vec3) : Vec3 :=
  ⟨(a.x + b.x) / 2, (a.y + b.y) / 2, (a.z + b.z) / 2⟩

/-- Euclidean distance between two points, as the spec words the gate
width. -/
def euclidDist (a b : Vec3) : ℝ :=
  Real.sqrt ((a.x - b.x) ^ 2 + (a.y - b.y) ^ 2 + (a.z - b.z) ^ 2)

/-- C1: the classification first computes the vehicle position in the gate's
local frame, then returns OUTSIDE when `|localY| > width/2`, else AFTER when
`localX >= 0`, else BEFORE; `localX = 0` inside the door classifies AFTER,
and `|localY| = width/2` never classifies OUTSIDE (the outside test is
strict). -/
theorem IsPoseInGate_spec_form (g : Gate) (robot : WorldPose)
    (hw : 0 ≤ g.width) :
    (g.IsPoseInGate robot =
      if |(g.robotLocalPosition robot).y| > g.width / 2 then VEHICLE_OUTSIDE
      else if (g.robotLocalPosition robot).x ≥ 0 then VEHICLE_AFTER
      else VEHICLE_BEFORE) ∧
    ((g.robotLocalPosition robot).x = 0 →
      ¬ |(g.robotLocalPosition robot).y| > g.width / 2 →
      g.IsPoseInGate robot = VEHICLE_AFTER) ∧
    (|(g.robotLocalPosition robot).y| = g.width / 2 →
      g.IsPoseInGate robot ≠ VEHICLE_OUTSIDE) := by
  have hp : g.IsPoseInGate robot =
      if |(g.robotLocalPosition robot).y| ≤ g.width / 2 then
        (if (g.robotLocalPosition robot).x ≥ 0 then VEHICLE_AFTER else VEHICLE_BEFORE)
      else VEHICLE_OUTSIDE := rfl
  refine ⟨?_, ?_, ?_⟩
  · rw [hp]
    by_cases h1 : |(g.robotLocalPosition robot).y| ≤ g.width / 2
    · rw [if_pos h1, if_neg (not_lt.2 h1)]
    · rw [if_neg h1, if_pos (lt_of_not_le h1)]
  · intro hx hy
    rw [hp, if_pos (not_lt.1 hy), if_pos (ge_of_eq hx)]
  · intro hy
    rw [hp, if_pos (le_of_eq hy)]
    split_ifs <;> decide

/-- Witness for C1 at a concrete gate of width 10 and vehicle at (1, 2, 0):
the width is non-negative and the classification agrees with the spec's
branch order and tie-breaks. -/
theorem IsPoseInGate_spec_form_w :
    0 ≤ gate10.width ∧
    ((gate10.IsPoseInGate ⟨⟨1, 2, 0⟩, quatId⟩ =
      if |(gate10.robotLocalPosition ⟨⟨1, 2, 0⟩, quatId⟩).y| > gate10.width / 2 then
        VEHICLE_OUTSIDE
      else if (gate10.robotLocalPosition ⟨⟨1, 2, 0⟩, quatId⟩).x ≥ 0 then VEHICLE_AFTER
      else VEHICLE_BEFORE) ∧
    ((gate10.robotLocalPosition ⟨⟨1, 2, 0⟩, quatId⟩).x = 0 →
      ¬ |(gate10.robotLocalPosition ⟨⟨1, 2, 0⟩, quatId⟩).y| > gate10.width / 2 →
      gate10.IsPoseInGate ⟨⟨1, 2, 0⟩, quatId⟩ = VEHICLE_AFTER) ∧
    (|(gate10.robotLocalPosition ⟨⟨1, 2, 0⟩, quatId⟩).y| = gate10.width / 2 →
      gate10.IsPoseInGate ⟨⟨1, 2, 0⟩, quatId⟩ ≠ VEHICLE_OUTSIDE)) :=
  ⟨by norm_num [gate10], IsPoseInGate_spec_form gate10 ⟨⟨1, 2, 0⟩, quatId⟩
    (by norm_num [gate10])⟩

/-- C4: the geometry refresh puts the gate center at the midpoint of the two
marker positions, the yaw at `atan2(v2.y, v2.x)` for
`v2 = unitZ x normalize(left - right)`, and the width at the Euclidean
distance between the markers; the orientation is yaw-only by construction
(the plugin writes `pose.Set(middle, Vector3(0, 0, yaw))`). -/
theorem Update_geometry (g : Gate) (l r : Vec3) :
    (g.Update (some l) (some r)).pose.pos = midpointSpec l r ∧
    (g.Update (some l) (some r)).pose.yaw =
      atan2 (Vec3.Cross unitZ ((l - r).Normalize)).y
        (Vec3.Cross unitZ ((l - r).Normalize)).x ∧
    (g.Update (some l) (some r)).width = euclidDist l r :=
  ⟨rfl, rfl, rfl⟩

/-- Component of a vector difference. -/
theorem Vec3.sub_x (a b : Vec3) : (a - b).x = a.x - b.x := rfl

/-- Component of a vector difference. -/
theorem Vec3.sub_y (a b : Vec3) : (a - b).y = a.y - b.y := rfl

/-- Component of a vector difference. -/
theorem Vec3.sub_z (a b : Vec3) : (a - b).z = a.z - b.z := rfl

/-- Distance between two points is symmetric. -/
theorem Vec3.Distance_comm (a b : Vec3) : a.Distance b = b.Distance a := by
  unfold Vec3.Distance
  congr 1
  ring

/-- A vector with a nonzero horizontal component has positive length. -/
theorem Vec3.GetLength_pos_of_xy (v : Vec3) (h : v.x ≠ 0 ∨ v.y ≠ 0) :
    0 < v.GetLength := by
  unfold Vec3.GetLength
  apply Real.sqrt_pos.2
  have hy := sq_nonneg v.y
  have hz := sq_nonneg v.z
  have hx := sq_nonneg v.x
  rcases h with h | h
  · have : v.x ^ 2 ≠ 0 := pow_ne_zero 2 h
    have := lt_of_le_of_ne hx (Ne.symm this)
    linarith
  · have : v.y ^ 2 ≠ 0 := pow_ne_zero 2 h
    have := lt_of_le_of_ne hy (Ne.symm this)
    linarith

/-- Normalization unfolded when the length is nonzero. -/
theorem Vec3.Normalize_eq (v : Vec3) (h : v.GetLength ≠ 0) :
    v.Normalize = ⟨v.x / v.GetLength, v.y / v.GetLength, v.z / v.GetLength⟩ := by
  unfold Vec3.Normalize
  rw [if_neg h]

/-- The yaw computed by the geometry refresh, written as a complex argument:
with `u = normalize(left - right)` the cross product `unitZ x u` is
`(-u.y, u.x, 0)`, so the yaw is `arg (-u.y + u.x i)`. -/
theorem Update_yaw_arg (g : Gate) (l r : Vec3) :
    (g.Update (some l) (some r)).pose.yaw =
      Complex.arg ⟨-((l - r).Normalize).y, ((l - r).Normalize).x⟩ := by
  show atan2 (Vec3.Cross unitZ ((l - r).Normalize)).y
      (Vec3.Cross unitZ ((l - r).Normalize)).x = _
  unfold atan2
  congr 1
  apply Complex.ext
  · show (unitZ.y * ((l - r).Normalize).z - unitZ.z * ((l - r).Normalize).y) = _
    show (0 : ℝ) * ((l - r).Normalize).z - 1 * ((l - r).Normalize).y = _
    ring
  · show (unitZ.z * ((l - r).Normalize).x - unitZ.x * ((l - r).Normalize).z) = _
    show (1 : ℝ) * ((l - r).Normalize).x - 0 * ((l - r).Normalize).z = _
    ring

/-- An IEEE-style signed real: an exact real value together with its sign
bit, which distinguishes +0 from -0.  The real-valued `Vec3` model collapses
the sign of zero, but the 180-degree yaw flip under marker swap is sensitive
to it (through `atan2`), so the swap property is settled over this model:
exact real arithmetic plus IEEE 754 sign-of-zero propagation.  For values
built by the operations below from canonically signed inputs, a nonzero
value always carries the sign bit of its sign. -/
structure SReal where
  val : ℝ
  sign : Bool

/-- Injection of a real as an IEEE value with canonical sign bit (never a
negative zero). -/
noncomputable def SReal.ofReal (x : ℝ) : SReal :=
  ⟨x, decide (x < 0)⟩

/-- IEEE negation: negate the value and flip the sign bit. -/
def SReal.neg (a : SReal) : SReal :=
  ⟨-a.val, !a.sign⟩

/-- IEEE addition in the default rounding direction: a zero sum is -0
exactly when both operands are -0; an exact cancellation of nonzero
operands (which have opposite sign bits) is +0 (IEEE 754 sect. 6.3). -/
noncomputable def SReal.add (a b : SReal) : SReal :=
  ⟨a.val + b.val,
   if a.val + b.val = 0 then a.sign && b.sign else decide (a.val + b.val < 0)⟩

/-- IEEE subtraction: addition of the negated operand. -/
noncomputable def SReal.sub (a b : SReal) : SReal :=
  a.add b.neg

/-- IEEE multiplication: the sign bit is the exclusive or of the operand
sign bits, also when the product is zero. -/
noncomputable def SReal.mul (a b : SReal) : SReal :=
  ⟨a.val * b.val, Bool.xor a.sign b.sign⟩

/-- IEEE division: the sign bit is the exclusive or of the operand sign
bits (used here only with a positive divisor). -/
noncomputable def SReal.div (a b : SReal) : SReal :=
  ⟨a.val / b.val, Bool.xor a.sign b.sign⟩

/-- A 3D vector of signed reals. -/
structure SVec3 where
  x : SReal
  y : SReal
  z : SReal

/-- Injection of a real vector with canonical sign bits. -/
noncomputable def SVec3.ofVec3 (v : Vec3) : SVec3 :=
  ⟨SReal.ofReal v.x, SReal.ofReal v.y, SReal.ofReal v.z⟩

/-- Componentwise IEEE vector difference. -/
noncomputable def SVec3.sub (a b : SVec3) : SVec3 :=
  ⟨a.x.sub b.x, a.y.sub b.y, a.z.sub b.z⟩

/-- Length of a vector (`Vector3::GetLength`) over signed reals: squares
discard sign bits and the square root is non-negative, so the sign bit is
positive. -/
noncomputable def SVec3.GetLength (v : SVec3) : SReal :=
  ⟨Real.sqrt (v.x.val ^ 2 + v.y.val ^ 2 + v.z.val ^ 2), false⟩

/-- Normalization (`Vector3::Normalize`) over signed reals, with the same
zero-length guard as the real-valued model. -/
noncomputable def SVec3.Normalize (v : SVec3) : SVec3 :=
  if v.GetLength.val = 0 then v
  else ⟨v.x.div v.GetLength, v.y.div v.GetLength, v.z.div v.GetLength⟩

/-- Cross product (`Vector3::Cross`) over signed reals. -/
noncomputable def SVec3.Cross (a b : SVec3) : SVec3 :=
  ⟨(a.y.mul b.z).sub (a.z.mul b.y),
   (a.z.mul b.x).sub (a.x.mul b.z),
   (a.x.mul b.y).sub (a.y.mul b.x)⟩

/-- Distance between two points (`Vector3::Distance`) over signed reals. -/
noncomputable def SVec3.Distance (a b : SVec3) : ℝ :=
  Real.sqrt ((a.x.val - b.x.val) ^ 2 + (a.y.val - b.y.val) ^ 2 +
    (a.z.val - b.z.val) ^ 2)

/-- The constant `gazebo::math::Vector3::UnitZ` over signed reals. -/
noncomputable def unitZS : SVec3 :=
  ⟨SReal.ofReal 0, SReal.ofReal 0, SReal.ofReal 1⟩

/-- The C library function `atan2` on signed reals (C99 Annex F): for a
nonzero y it is the argument of `x + y i`; for a zero y the result is
determined by the sign bits: +-0 when x is in the positive half-plane
(+0 included) and +-pi when x is negative (-0 included).  A zero result is
returned as the real 0, since the sign of a zero angle is irrelevant
downstream. -/
noncomputable def atan2S (y x : SReal) : ℝ :=
  if y.val = 0 then
    (if x.val < 0 ∨ (x.val = 0 ∧ x.sign = true) then
      (if y.sign = true then -Real.pi else Real.pi)
     else 0)
  else Complex.arg ⟨x.val, y.val⟩

/-- The marker difference `v1` before normalization, line 44 of the source,
over signed reals. -/
noncomputable def sdiff (l r : Vec3) : SVec3 :=
  (SVec3.ofVec3 l).sub (SVec3.ofVec3 r)

/-- The length of the marker difference. -/
noncomputable def sdiffLen (l r : Vec3) : ℝ :=
  (sdiff l r).GetLength.val

/-- The normalized marker difference `v1`, line 45 of the source, over
signed reals. -/
noncomputable def sV1 (l r : Vec3) : SVec3 :=
  (sdiff l r).Normalize

/-- The cross product `v2 = UnitZ x v1`, line 48 of the source, over signed
reals. -/
noncomputable def sV2 (l r : Vec3) : SVec3 :=
  unitZS.Cross (sV1 l r)

/-- The gate yaw `atan2(v2.y, v2.x)` computed by `Gate::Update` (lines
44-57), over signed reals: the IEEE-faithful counterpart of the yaw stored
by `Gate.Update`. -/
noncomputable def gateYawS (leftMarkerPos rightMarkerPos : Vec3) : ℝ :=
  atan2S (sV2 leftMarkerPos rightMarkerPos).y (sV2 leftMarkerPos rightMarkerPos).x

/-- The gate width computed by `Gate::Update` (line 60), over signed
reals. -/
noncomputable def gateWidthS (leftMarkerPos rightMarkerPos : Vec3) : ℝ :=
  (SVec3.ofVec3 leftMarkerPos).Distance (SVec3.ofVec3 rightMarkerPos)

/-- The signed-real width agrees definitionally with the width stored by
the real-valued `Gate.Update`. -/
theorem gateWidthS_eq_Update_width (g : Gate) (l r : Vec3) :
    gateWidthS l r = (g.Update (some l) (some r)).width := rfl

/-- Exclusive or with false on the right. -/
theorem bool_xor_false (b : Bool) : Bool.xor b false = b := by
  cases b <;> rfl

/-- Exclusive or with false on the left. -/
theorem bool_false_xor (b : Bool) : Bool.xor false b = b := by
  cases b <;> rfl

/-- Conjunction of a bit with its own negation. -/
theorem bool_and_not_self (b : Bool) : (b && !b) = false := by
  cases b <;> rfl

/-- Value of an injected real. -/
theorem SReal.ofReal_val (x : ℝ) : (SReal.ofReal x).val = x := rfl

/-- An injected non-negative real has a positive sign bit. -/
theorem SReal.ofReal_sign_of_nonneg (x : ℝ) (h : 0 ≤ x) :
    (SReal.ofReal x).sign = false := by
  show decide (x < 0) = false
  exact decide_eq_false (not_lt.2 h)

/-- Value of an IEEE difference. -/
theorem SReal.sub_val (a b : SReal) : (a.sub b).val = a.val - b.val := by
  show a.val + -b.val = a.val - b.val
  ring

/-- Sign of an IEEE difference of unequal values: the sign of the exact
difference. -/
theorem SReal.sub_sign_of_ne (a b : SReal) (h : a.val ≠ b.val) :
    (a.sub b).sign = decide (a.val - b.val < 0) := by
  have e : a.val + -b.val = a.val - b.val := by ring
  show (if a.val + -b.val = 0 then (a.sign && !b.sign)
        else decide (a.val + -b.val < 0)) = _
  rw [e, if_neg (sub_ne_zero.2 h)]

/-- Sign of an IEEE difference of equal values: negative only when the
minuend is negatively signed and the subtrahend is not. -/
theorem SReal.sub_sign_of_eq (a b : SReal) (h : a.val = b.val) :
    (a.sub b).sign = (a.sign && !b.sign) := by
  show (if a.val + -b.val = 0 then (a.sign && !b.sign)
        else decide (a.val + -b.val < 0)) = _
  rw [if_pos (by rw [h]; ring)]

/-- Value of an IEEE product. -/
theorem SReal.mul_val (a b : SReal) : (a.mul b).val = a.val * b.val := rfl

/-- Sign of an IEEE product. -/
theorem SReal.mul_sign (a b : SReal) :
    (a.mul b).sign = Bool.xor a.sign b.sign := rfl

/-- Value of an IEEE quotient. -/
theorem SReal.div_val (a b : SReal) : (a.div b).val = a.val / b.val := rfl

/-- Sign bits of the signed unit-z vector. -/
theorem unitZS_x_sign : unitZS.x.sign = false :=
  SReal.ofReal_sign_of_nonneg 0 le_rfl

/-- Sign bits of the signed unit-z vector. -/
theorem unitZS_y_sign : unitZS.y.sign = false :=
  SReal.ofReal_sign_of_nonneg 0 le_rfl

/-- Sign bits of the signed unit-z vector. -/
theorem unitZS_z_sign : unitZS.z.sign = false :=
  SReal.ofReal_sign_of_nonneg 1 (by norm_num)

/-- Value of the x component of the marker difference. -/
theorem sdiff_x_val (l r : Vec3) : (sdiff l r).x.val = l.x - r.x :=
  SReal.sub_val (SReal.ofReal l.x) (SReal.ofReal r.x)

/-- Value of the y component of the marker difference. -/
theorem sdiff_y_val (l r : Vec3) : (sdiff l r).y.val = l.y - r.y :=
  SReal.sub_val (SReal.ofReal l.y) (SReal.ofReal r.y)

/-- Value of the z component of the marker difference. -/
theorem sdiff_z_val (l r : Vec3) : (sdiff l r).z.val = l.z - r.z :=
  SReal.sub_val (SReal.ofReal l.z) (SReal.ofReal r.z)

/-- The difference of two equal canonically signed coordinates is +0. -/
theorem sdiff_x_sign_of_eq (l r : Vec3) (h : l.x = r.x) :
    (sdiff l r).x.sign = false := by
  show ((SReal.ofReal l.x).sub (SReal.ofReal r.x)).sign = false
  rw [SReal.sub_sign_of_eq _ _ (show (SReal.ofReal l.x).val = (SReal.ofReal r.x).val from h)]
  show (decide (l.x < 0) && !decide (r.x < 0)) = false
  rw [h]
  exact bool_and_not_self _

/-- The difference of two equal canonically signed coordinates is +0. -/
theorem sdiff_y_sign_of_eq (l r : Vec3) (h : l.y = r.y) :
    (sdiff l r).y.sign = false := by
  show ((SReal.ofReal l.y).sub (SReal.ofReal r.y)).sign = false
  rw [SReal.sub_sign_of_eq _ _ (show (SReal.ofReal l.y).val = (SReal.ofReal r.y).val from h)]
  show (decide (l.y < 0) && !decide (r.y < 0)) = false
  rw [h]
  exact bool_and_not_self _

/-- The difference of two unequal z coordinates carries the sign of the
exact difference. -/
theorem sdiff_z_sign_of_ne (l r : Vec3) (h : l.z ≠ r.z) :
    (sdiff l r).z.sign = decide (l.z - r.z < 0) :=
  SReal.sub_sign_of_ne (SReal.ofReal l.z) (SReal.ofReal r.z) h

/-- A square root of a sum of three squares with a nonzero entry is
positive. -/
theorem sqrt_sq3_pos (a b c : ℝ) (h : a ≠ 0 ∨ b ≠ 0 ∨ c ≠ 0) :
    0 < Real.sqrt (a ^ 2 + b ^ 2 + c ^ 2) := by
  apply Real.sqrt_pos.2
  have ha := sq_nonneg a
  have hb := sq_nonneg b
  have hc := sq_nonneg c
  rcases h with h | h | h
  · have h2 := lt_of_le_of_ne ha (Ne.symm (pow_ne_zero 2 h))
    linarith
  · have h2 := lt_of_le_of_ne hb (Ne.symm (pow_ne_zero 2 h))
    linarith
  · have h2 := lt_of_le_of_ne hc (Ne.symm (pow_ne_zero 2 h))
    linarith

/-- The marker difference of distinct markers has positive length. -/
theorem sdiffLen_pos (l r : Vec3) (h : l.x ≠ r.x ∨ l.y ≠ r.y ∨ l.z ≠ r.z) :
    0 < sdiffLen l r := by
  show 0 < Real.sqrt ((sdiff l r).x.val ^ 2 + (sdiff l r).y.val ^ 2 +
    (sdiff l r).z.val ^ 2)
  rw [sdiff_x_val, sdiff_y_val, sdiff_z_val]
  apply sqrt_sq3_pos
  rcases h with h | h | h
  · exact Or.inl (sub_ne_zero.2 h)
  · exact Or.inr (Or.inl (sub_ne_zero.2 h))
  · exact Or.inr (Or.inr (sub_ne_zero.2 h))

/-- The length of the marker difference is symmetric in the markers. -/
theorem sdiffLen_comm (l r : Vec3) : sdiffLen l r = sdiffLen r l := by
  show Real.sqrt ((sdiff l r).x.val ^ 2 + (sdiff l r).y.val ^ 2 +
      (sdiff l r).z.val ^ 2) =
    Real.sqrt ((sdiff r l).x.val ^ 2 + (sdiff r l).y.val ^ 2 +
      (sdiff r l).z.val ^ 2)
  rw [sdiff_x_val l r, sdiff_y_val l r, sdiff_z_val l r,
    sdiff_x_val r l, sdiff_y_val r l, sdiff_z_val r l]
  congr 1
  ring

/-- Normalization over signed reals unfolded when the length is nonzero. -/
theorem SVec3.Normalize_eq_of_ne (v : SVec3) (h : v.GetLength.val ≠ 0) :
    v.Normalize = ⟨v.x.div v.GetLength, v.y.div v.GetLength,
      v.z.div v.GetLength⟩ := by
  unfold SVec3.Normalize
  rw [if_neg h]

/-- Value of the x component of the normalized marker difference. -/
theorem sV1_x_val (l r : Vec3) (hd : sdiffLen l r ≠ 0) :
    (sV1 l r).x.val = (l.x - r.x) / sdiffLen l r := by
  unfold sV1
  rw [SVec3.Normalize_eq_of_ne _ hd]
  show ((sdiff l r).x.div (sdiff l r).GetLength).val = _
  rw [SReal.div_val, sdiff_x_val]
  rfl

/-- Value of the y component of the normalized marker difference. -/
theorem sV1_y_val (l r : Vec3) (hd : sdiffLen l r ≠ 0) :
    (sV1 l r).y.val = (l.y - r.y) / sdiffLen l r := by
  unfold sV1
  rw [SVec3.Normalize_eq_of_ne _ hd]
  show ((sdiff l r).y.div (sdiff l r).GetLength).val = _
  rw [SReal.div_val, sdiff_y_val]
  rfl

/-- Sign of the x component of the normalized marker difference: dividing
by the positively signed length preserves the sign bit. -/
theorem sV1_x_sign (l r : Vec3) (hd : sdiffLen l r ≠ 0) :
    (sV1 l r).x.sign = (sdiff l r).x.sign := by
  unfold sV1
  rw [SVec3.Normalize_eq_of_ne _ hd]
  show Bool.xor (sdiff l r).x.sign (sdiff l r).GetLength.sign = _
  show Bool.xor (sdiff l r).x.sign false = _
  exact bool_xor_false _

/-- Sign of the y component of the normalized marker difference. -/
theorem sV1_y_sign (l r : Vec3) (hd : sdiffLen l r ≠ 0) :
    (sV1 l r).y.sign = (sdiff l r).y.sign := by
  unfold sV1
  rw [SVec3.Normalize_eq_of_ne _ hd]
  show Bool.xor (sdiff l r).y.sign (sdiff l r).GetLength.sign = _
  show Bool.xor (sdiff l r).y.sign false = _
  exact bool_xor_false _

/-- Sign of the z component of the normalized marker difference. -/
theorem sV1_z_sign (l r : Vec3) (hd : sdiffLen l r ≠ 0) :
    (sV1 l r).z.sign = (sdiff l r).z.sign := by
  unfold sV1
  rw [SVec3.Normalize_eq_of_ne _ hd]
  show Bool.xor (sdiff l r).z.sign (sdiff l r).GetLength.sign = _
  show Bool.xor (sdiff l r).z.sign false = _
  exact bool_xor_false _

/-- Value of the x component of the cross product: `0 * v1.z - 1 * v1.y`. -/
theorem sV2_x_val (l r : Vec3) : (sV2 l r).x.val = -(sV1 l r).y.val := by
  show ((unitZS.y.mul (sV1 l r).z).sub (unitZS.z.mul (sV1 l r).y)).val = _
  rw [SReal.sub_val, SReal.mul_val, SReal.mul_val]
  show (0 : ℝ) * (sV1 l r).z.val - 1 * (sV1 l r).y.val = _
  ring

/-- Value of the y component of the cross product: `1 * v1.x - 0 * v1.z`. -/
theorem sV2_y_val (l r : Vec3) : (sV2 l r).y.val = (sV1 l r).x.val := by
  show ((unitZS.z.mul (sV1 l r).x).sub (unitZS.x.mul (sV1 l r).z)).val = _
  rw [SReal.sub_val, SReal.mul_val, SReal.mul_val]
  show (1 : ℝ) * (sV1 l r).x.val - 0 * (sV1 l r).z.val = _
  ring

/-- When the markers share their x coordinate the y component of the cross
product is +0: both products in `1 * v1.x - 0 * v1.z` are positively signed
zeros. -/
theorem sV2_y_sign_of_x_eq (l r : Vec3) (hd : sdiffLen l r ≠ 0)
    (hx : l.x = r.x) : (sV2 l r).y.sign = false := by
  have hvals : (unitZS.z.mul (sV1 l r).x).val = (unitZS.x.mul (sV1 l r).z).val := by
    rw [SReal.mul_val, SReal.mul_val, sV1_x_val l r hd, hx, sub_self, zero_div]
    show (1 : ℝ) * 0 = 0 * (sV1 l r).z.val
    ring
  show ((unitZS.z.mul (sV1 l r).x).sub (unitZS.x.mul (sV1 l r).z)).sign = false
  rw [SReal.sub_sign_of_eq _ _ hvals, SReal.mul_sign, SReal.mul_sign,
    unitZS_z_sign, unitZS_x_sign, bool_false_xor, bool_false_xor,
    sV1_x_sign l r hd, sdiff_x_sign_of_eq l r hx]
  rfl

/-- When the markers share their y coordinate the x component of the cross
product `0 * v1.z - 1 * v1.y` is a zero whose sign bit is that of v1.z:
the `0 * v1.z` product carries the sign of v1.z and the subtrahend is +0. -/
theorem sV2_x_sign_of_y_eq (l r : Vec3) (hd : sdiffLen l r ≠ 0)
    (hy : l.y = r.y) : (sV2 l r).x.sign = (sV1 l r).z.sign := by
  have hvals : (unitZS.y.mul (sV1 l r).z).val = (unitZS.z.mul (sV1 l r).y).val := by
    rw [SReal.mul_val, SReal.mul_val, sV1_y_val l r hd, hy, sub_self, zero_div]
    show (0 : ℝ) * (sV1 l r).z.val = 1 * 0
    ring
  show ((unitZS.y.mul (sV1 l r).z).sub (unitZS.z.mul (sV1 l r).y)).sign = _
  rw [SReal.sub_sign_of_eq _ _ hvals, SReal.mul_sign, SReal.mul_sign,
    unitZS_y_sign, unitZS_z_sign, bool_false_xor, bool_false_xor,
    sV1_y_sign l r hd, sdiff_y_sign_of_eq l r hy]
  cases h : (sV1 l r).z.sign <;> rfl

/-- The atan2 of a nonzero y is the complex argument of the values. -/
theorem atan2S_of_y_ne (y x : SReal) (h : y.val ≠ 0) :
    atan2S y x = Complex.arg ⟨x.val, y.val⟩ := by
  unfold atan2S
  rw [if_neg h]

/-- atan2 of a positively signed zero y over the positive half-plane. -/
theorem atan2S_zero_zero (y x : SReal) (hy : y.val = 0)
    (hx : ¬(x.val < 0 ∨ (x.val = 0 ∧ x.sign = true))) : atan2S y x = 0 := by
  unfold atan2S
  rw [if_pos hy, if_neg hx]

/-- atan2 of a positively signed zero y over the negative half-plane. -/
theorem atan2S_zero_pi (y x : SReal) (hy : y.val = 0) (hys : y.sign = false)
    (hx : x.val < 0 ∨ (x.val = 0 ∧ x.sign = true)) :
    atan2S y x = Real.pi := by
  unfold atan2S
  rw [if_pos hy, if_pos hx, hys, if_neg Bool.false_ne_true]

/-- Gate yaw for markers with distinct x coordinates: the y argument of
atan2 is nonzero, so the yaw is the complex argument of the in-plane cross
vector. -/
theorem gateYawS_xdiff (l r : Vec3) (hx : l.x ≠ r.x) :
    gateYawS l r =
      Complex.arg ⟨-((l.y - r.y) / sdiffLen l r), (l.x - r.x) / sdiffLen l r⟩ := by
  have hd0 : 0 < sdiffLen l r := sdiffLen_pos l r (Or.inl hx)
  have hd : sdiffLen l r ≠ 0 := ne_of_gt hd0
  have hyv : (sV2 l r).y.val = (l.x - r.x) / sdiffLen l r := by
    rw [sV2_y_val, sV1_x_val l r hd]
  have hyne : (sV2 l r).y.val ≠ 0 := by
    rw [hyv]
    exact div_ne_zero (sub_ne_zero.2 hx) hd
  unfold gateYawS
  rw [atan2S_of_y_ne _ _ hyne, hyv, sV2_x_val, sV1_y_val l r hd]

/-- Gate yaw for markers sharing their x coordinate but with distinct y
coordinates: the atan2 arguments are `(+0, -(dy)/d)`, so the yaw is pi when
the left marker is to the positive-y side of the right one and 0
otherwise. -/
theorem gateYawS_ycol (l r : Vec3) (hx : l.x = r.x) (hy : l.y ≠ r.y) :
    gateYawS l r = if r.y < l.y then Real.pi else 0 := by
  have hd0 : 0 < sdiffLen l r := sdiffLen_pos l r (Or.inr (Or.inl hy))
  have hd : sdiffLen l r ≠ 0 := ne_of_gt hd0
  have hyv : (sV2 l r).y.val = 0 := by
    rw [sV2_y_val, sV1_x_val l r hd, hx, sub_self, zero_div]
  have hys : (sV2 l r).y.sign = false := sV2_y_sign_of_x_eq l r hd hx
  have hxv : (sV2 l r).x.val = -((l.y - r.y) / sdiffLen l r) := by
    rw [sV2_x_val, sV1_y_val l r hd]
  unfold gateYawS
  by_cases hgt : r.y < l.y
  · rw [if_pos hgt]
    have hval : (sV2 l r).x.val < 0 := by
      rw [hxv]
      have := div_pos (sub_pos.2 hgt) hd0
      linarith
    exact atan2S_zero_pi _ _ hyv hys (Or.inl hval)
  · rw [if_neg hgt]
    have hval : 0 < (sV2 l r).x.val := by
      rw [hxv]
      have hyy : l.y - r.y < 0 :=
        sub_neg.2 (lt_of_le_of_ne (not_lt.1 hgt) hy)
      have := div_neg_of_neg_of_pos hyy hd0
      linarith
    apply atan2S_zero_zero _ _ hyv
    intro hc
    rcases hc with hneg | ⟨h0, _⟩
    · linarith
    · rw [h0] at hval
      exact lt_irrefl 0 hval

/-- Gate yaw for markers sharing their horizontal projection but with
distinct z coordinates: the atan2 arguments are two zeros whose sign bits
come from `0 * v1.z`, so the yaw is pi when the left marker is below the
right one (x argument -0) and 0 otherwise (x argument +0). -/
theorem gateYawS_zcol (l r : Vec3) (hx : l.x = r.x) (hy : l.y = r.y)
    (hz : l.z ≠ r.z) :
    gateYawS l r = if l.z < r.z then Real.pi else 0 := by
  have hd0 : 0 < sdiffLen l r := sdiffLen_pos l r (Or.inr (Or.inr hz))
  have hd : sdiffLen l r ≠ 0 := ne_of_gt hd0
  have hyv : (sV2 l r).y.val = 0 := by
    rw [sV2_y_val, sV1_x_val l r hd, hx, sub_self, zero_div]
  have hys : (sV2 l r).y.sign = false := sV2_y_sign_of_x_eq l r hd hx
  have hxv : (sV2 l r).x.val = 0 := by
    rw [sV2_x_val, sV1_y_val l r hd, hy, sub_self, zero_div, neg_zero]
  have hxs : (sV2 l r).x.sign = decide (l.z - r.z < 0) := by
    rw [sV2_x_sign_of_y_eq l r hd hy, sV1_z_sign l r hd,
      sdiff_z_sign_of_ne l r hz]
  unfold gateYawS
  by_cases hlt : l.z < r.z
  · rw [if_pos hlt]
    apply atan2S_zero_pi _ _ hyv hys
    right
    refine ⟨hxv, ?_⟩
    rw [hxs]
    exact decide_eq_true (by linarith)
  · rw [if_neg hlt]
    apply atan2S_zero_zero _ _ hyv
    intro hc
    rcases hc with hneg | ⟨h0, hs⟩
    · rw [hxv] at hneg
      exact lt_irrefl 0 hneg
    · rw [hxs] at hs
      have := of_decide_eq_true hs
      exact hlt (by linarith)

/-- Extensionality for the embedded 3D vectors. -/
theorem Vec3.ext3 (a b : Vec3) (hx : a.x = b.x) (hy : a.y = b.y)
    (hz : a.z = b.z) : a = b := by
  cases a
  cases b
  simp only [Vec3.mk.injEq]
  exact ⟨hx, hy, hz⟩

/-- An angle of pi is a flip of the zero angle and conversely. -/
theorem angle_pi_flip_a :
    ((Real.pi : ℝ) : Real.Angle) = ((0 : ℝ) : Real.Angle) + (Real.pi : Real.Angle) := by
  rw [Real.Angle.coe_zero, zero_add]

/-- An angle of zero is a flip of the angle pi. -/
theorem angle_pi_flip_b :
    ((0 : ℝ) : Real.Angle) = ((Real.pi : ℝ) : Real.Angle) + (Real.pi : Real.Angle) := by
  rw [Real.Angle.coe_zero, Real.Angle.coe_pi_add_coe_pi]

/-- C7: for every pair of distinct marker positions, `Gate::Update` with
the left and right arguments swapped computes the same width (distance is
symmetric) while the yaw flips by 180 degrees as an angle.  Proved over the
signed-real model: for markers with distinct x the cross vectors of the two
orders are exact negatives and the arguments differ by pi; for markers
differing only in y or only in z the two yaws are the pair {0, pi}, decided
by IEEE sign-of-zero propagation through `0 * v1.z - 1 * v1.y` and the C99
Annex F atan2 corner cases. -/
theorem Update_swap_markers_flip (l r : Vec3) (h : l ≠ r) :
    gateWidthS l r = gateWidthS r l ∧
    ((gateYawS r l : Real.Angle) =
      (gateYawS l r : Real.Angle) + (Real.pi : Real.Angle)) := by
  constructor
  · show Real.sqrt ((l.x - r.x) ^ 2 + (l.y - r.y) ^ 2 + (l.z - r.z) ^ 2) =
      Real.sqrt ((r.x - l.x) ^ 2 + (r.y - l.y) ^ 2 + (r.z - l.z) ^ 2)
    congr 1
    ring
  · by_cases hx : l.x = r.x
    · by_cases hy : l.y = r.y
      · have hz : l.z ≠ r.z := fun hz => h (Vec3.ext3 l r hx hy hz)
        rw [gateYawS_zcol l r hx hy hz,
          gateYawS_zcol r l hx.symm hy.symm (Ne.symm hz)]
        rcases lt_or_gt_of_ne hz with hlt | hgt
        · rw [if_pos hlt, if_neg (not_lt.2 (le_of_lt hlt))]
          exact angle_pi_flip_b
        · rw [if_neg (not_lt.2 (le_of_lt hgt)), if_pos hgt]
          exact angle_pi_flip_a
      · rw [gateYawS_ycol l r hx hy, gateYawS_ycol r l hx.symm (Ne.symm hy)]
        rcases lt_or_gt_of_ne hy with hlt | hgt
        · rw [if_neg (not_lt.2 (le_of_lt hlt)), if_pos hlt]
          exact angle_pi_flip_a
        · rw [if_pos hgt, if_neg (not_lt.2 (le_of_lt hgt))]
          exact angle_pi_flip_b
    · have hd0 : 0 < sdiffLen l r := sdiffLen_pos l r (Or.inl hx)
      rw [gateYawS_xdiff l r hx, gateYawS_xdiff r l (Ne.symm hx),
        sdiffLen_comm r l]
      have hzne :
          (⟨-((l.y - r.y) / sdiffLen l r), (l.x - r.x) / sdiffLen l r⟩ : ℂ) ≠ 0 := by
        intro h0
        have him := congrArg Complex.im h0
        simp only [Complex.zero_im] at him
        exact div_ne_zero (sub_ne_zero.2 hx) (ne_of_gt hd0) him
      have hneg :
          (⟨-((r.y - l.y) / sdiffLen l r), (r.x - l.x) / sdiffLen l r⟩ : ℂ) =
            -(⟨-((l.y - r.y) / sdiffLen l r), (l.x - r.x) / sdiffLen l r⟩ : ℂ) := by
        apply Complex.ext
        · show -((r.y - l.y) / sdiffLen l r) = -(-((l.y - r.y) / sdiffLen l r))
          ring
        · show (r.x - l.x) / sdiffLen l r = -((l.x - r.x) / sdiffLen l r)
          ring
      rw [hneg]
      exact Complex.arg_neg_coe_angle hzne

/-- Witness for C7 at the concrete distinct markers (0, 0, 1) and
(0, 0, 0), which differ only vertically: the width is swap-invariant and
the yaw still flips by 180 degrees, through the signed zeros
`atan2(+0, +0) = 0` and `atan2(+0, -0) = pi`. -/
theorem Update_swap_markers_flip_w :
    ((⟨0, 0, 1⟩ : Vec3) ≠ (⟨0, 0, 0⟩ : Vec3)) ∧
    (gateWidthS ⟨0, 0, 1⟩ ⟨0, 0, 0⟩ = gateWidthS ⟨0, 0, 0⟩ ⟨0, 0, 1⟩ ∧
      ((gateYawS ⟨0, 0, 0⟩ ⟨0, 0, 1⟩ : Real.Angle) =
        (gateYawS ⟨0, 0, 1⟩ ⟨0, 0, 0⟩ : Real.Angle) + (Real.pi : Real.Angle))) :=
  ⟨by norm_num [Vec3.mk.injEq],
    Update_swap_markers_flip ⟨0, 0, 1⟩ ⟨0, 0, 0⟩ (by norm_num [Vec3.mk.injEq])⟩

/-- C2: on a non-terminal previous state and a position classification, the
loop's crossing rule yields CROSSED for BEFORE then AFTER, INVALID for AFTER
then BEFORE, and the classification itself in every other case. -/
theorem advance_transition_table (prev cls : GateState)
    (hprev : prev ≠ CROSSED ∧ prev ≠ INVALID)
    (hcls : cls = VEHICLE_BEFORE ∨ cls = VEHICLE_AFTER ∨ cls = VEHICLE_OUTSIDE) :
    advance prev cls =
      if prev = VEHICLE_BEFORE ∧ cls = VEHICLE_AFTER then CROSSED
      else if prev = VEHICLE_AFTER ∧ cls = VEHICLE_BEFORE then INVALID
      else cls := by
  revert hprev hcls
  revert prev cls
  decide

/-- Witness for C2 at the concrete pair (VEHICLE_OUTSIDE, VEHICLE_AFTER):
the hypotheses hold and the transition yields VEHICLE_AFTER, not CROSSED. -/
theorem advance_transition_table_w :
    (VEHICLE_OUTSIDE ≠ CROSSED ∧ VEHICLE_OUTSIDE ≠ INVALID) ∧
      advance VEHICLE_OUTSIDE VEHICLE_AFTER =
        if VEHICLE_OUTSIDE = VEHICLE_BEFORE ∧ VEHICLE_AFTER = VEHICLE_AFTER then CROSSED
        else if VEHICLE_OUTSIDE = VEHICLE_AFTER ∧ VEHICLE_AFTER = VEHICLE_BEFORE then INVALID
        else VEHICLE_AFTER :=
  ⟨by decide, advance_transition_table VEHICLE_OUTSIDE VEHICLE_AFTER (by decide) (by decide)⟩

/-- C3: a gate whose state is CROSSED or INVALID is skipped by the update
loop: whatever the new marker positions and vehicle pose, the whole gate —
state, pose and width — is left unchanged. -/
theorem terminal_gate_frozen (g : Gate) (lm rm : Option Vec3)
    (robot : WorldPose) (h : g.state = CROSSED ∨ g.state = INVALID) :
    updateGate g lm rm robot = g := by
  unfold updateGate
  exact if_pos h

/-- Witness for C3: a concrete CROSSED gate fed fresh marker positions and a
fresh vehicle pose comes back unchanged. -/
theorem terminal_gate_frozen_w :
    ((⟨⟨⟨0, 0, 0⟩, 0⟩, 4, CROSSED⟩ : Gate).state = CROSSED ∨
      (⟨⟨⟨0, 0, 0⟩, 0⟩, 4, CROSSED⟩ : Gate).state = INVALID) ∧
    updateGate ⟨⟨⟨0, 0, 0⟩, 0⟩, 4, CROSSED⟩ (some ⟨3, 7, 0⟩) (some ⟨3, 1, 0⟩)
        ⟨⟨2, 2, 0⟩, quatId⟩ = ⟨⟨⟨0, 0, 0⟩, 0⟩, 4, CROSSED⟩ :=
  ⟨Or.inl rfl,
    terminal_gate_frozen ⟨⟨⟨0, 0, 0⟩, 0⟩, 4, CROSSED⟩ (some ⟨3, 7, 0⟩)
      (some ⟨3, 1, 0⟩) ⟨⟨2, 2, 0⟩, quatId⟩ (Or.inl rfl)⟩

/-- C5: a gate still in the initial state ends the first update in exactly
the classification of that first vehicle pose against the refreshed
geometry: neither crossing rule can fire from the initial state. -/
theorem first_update_state_is_classification (g : Gate) (lm rm : Option Vec3)
    (robot : WorldPose) (h : g.state = initialGateState) :
    (updateGate g lm rm robot).state = (g.Update lm rm).IsPoseInGate robot := by
  rw [updateGate_state, advanceGate, advance, h]
  simp [initialGateState]

/-- Witness for C5: a concrete fresh gate takes the classification of the
first observed pose as its state. -/
theorem first_update_state_is_classification_w :
    gate0.state = initialGateState ∧
    (updateGate gate0 (some ⟨0, 5, 0⟩) (some ⟨0, -5, 0⟩) ⟨⟨1, 2, 0⟩, quatId⟩).state =
      (gate0.Update (some ⟨0, 5, 0⟩) (some ⟨0, -5, 0⟩)).IsPoseInGate ⟨⟨1, 2, 0⟩, quatId⟩ :=
  ⟨rfl, first_update_state_is_classification gate0 (some ⟨0, 5, 0⟩)
    (some ⟨0, -5, 0⟩) ⟨⟨1, 2, 0⟩, quatId⟩ rfl⟩

/-- C6 counterexample: VEHICLE_AFTER is a non-terminal state, yet a gate
starting there and fed the classifications BEFORE, OUTSIDE, BEFORE, AFTER
ends INVALID (the first BEFORE is a backward transit), not CROSSED. -/
theorem before_outside_before_after_from_after_not_crossed :
    (VEHICLE_AFTER ≠ CROSSED ∧ VEHICLE_AFTER ≠ INVALID) ∧
    runClassifications VEHICLE_AFTER
        [VEHICLE_BEFORE, VEHICLE_OUTSIDE, VEHICLE_BEFORE, VEHICLE_AFTER] = INVALID ∧
    runClassifications VEHICLE_AFTER
        [VEHICLE_BEFORE, VEHICLE_OUTSIDE, VEHICLE_BEFORE, VEHICLE_AFTER] ≠ CROSSED := by
  decide

/-- C6 as amended: from a non-terminal starting state other than
VEHICLE_AFTER (i.e. VEHICLE_BEFORE or VEHICLE_OUTSIDE), the classification
sequence BEFORE, OUTSIDE, BEFORE, AFTER ends CROSSED: the intervening
OUTSIDE does not block the later valid crossing. -/
theorem before_outside_before_after_crossed (s : GateState)
    (h : s = VEHICLE_BEFORE ∨ s = VEHICLE_OUTSIDE) :
    runClassifications s
      [VEHICLE_BEFORE, VEHICLE_OUTSIDE, VEHICLE_BEFORE, VEHICLE_AFTER] = CROSSED := by
  revert h
  revert s
  decide

/-- Witness for amended C6 at the concrete starting state VEHICLE_BEFORE. -/
theorem before_outside_before_after_crossed_w :
    (VEHICLE_BEFORE = VEHICLE_BEFORE ∨ VEHICLE_BEFORE = VEHICLE_OUTSIDE) ∧
    runClassifications VEHICLE_BEFORE
      [VEHICLE_BEFORE, VEHICLE_OUTSIDE, VEHICLE_BEFORE, VEHICLE_AFTER] = CROSSED :=
  ⟨Or.inl rfl, before_outside_before_after_crossed VEHICLE_BEFORE (Or.inl rfl)⟩

/-- C9: `Gate::IsPoseInGate` reads only the position of the vehicle's world
pose: two vehicle poses with the same position and arbitrary orientations
classify identically against any gate. -/
theorem IsPoseInGate_ignores_orientation (g : Gate) (a b : WorldPose)
    (h : a.pos = b.pos) : g.IsPoseInGate a = g.IsPoseInGate b := by
  unfold Gate.IsPoseInGate Gate.robotLocalPosition
  rw [h]

/-- Witness for C9: two concrete vehicle poses sharing a position but with
different quaternions classify identically against the concrete gate. -/
theorem IsPoseInGate_ignores_orientation_w :
    (⟨⟨1, 2, 3⟩, quatId⟩ : WorldPose).pos = (⟨⟨1, 2, 3⟩, ⟨0, 0, 0, 1⟩⟩ : WorldPose).pos ∧
    gate0.IsPoseInGate ⟨⟨1, 2, 3⟩, quatId⟩ =
      gate0.IsPoseInGate ⟨⟨1, 2, 3⟩, ⟨0, 0, 0, 1⟩⟩ :=
  ⟨rfl, IsPoseInGate_ignores_orientation gate0 ⟨⟨1, 2, 3⟩, quatId⟩
    ⟨⟨1, 2, 3⟩, ⟨0, 0, 0, 1⟩⟩ rfl⟩

/-- C10: `Gate::Update` returns immediately when either marker model pointer
is null, leaving pose and width exactly as they were. -/
theorem Update_null_marker (g : Gate) (lm rm : Option Vec3)
    (h : lm = none ∨ rm = none) : g.Update lm rm = g := by
  rcases h with h | h <;> subst h
  · rfl
  · cases lm <;> rfl

/-- Witness for C10: a concrete gate with a null left marker pointer is
unchanged by the geometry refresh. -/
theorem Update_null_marker_w :
    ((none : Option Vec3) = none ∨ (some ⟨8, 9, 0⟩ : Option Vec3) = none) ∧
    gate0.Update none (some ⟨8, 9, 0⟩) = gate0 :=
  ⟨Or.inl rfl, Update_null_marker gate0 none (some ⟨8, 9, 0⟩) (Or.inl rfl)⟩

/-- C8: over the NaN-aware model of IEEE doubles, `Gate::IsPoseInGate` is
total — every input, degenerate geometry included, yields one of
VEHICLE_BEFORE, VEHICLE_AFTER, VEHICLE_OUTSIDE — and a NaN local-frame y
coordinate makes the comparisons false so the result collapses to
VEHICLE_OUTSIDE. -/
theorem IsPoseInGateN_total_and_nan (gp : PoseN) (w : NReal) (rp : Vec3N) :
    (IsPoseInGateN gp w rp = VEHICLE_OUTSIDE ∨
     IsPoseInGateN gp w rp = VEHICLE_AFTER ∨
     IsPoseInGateN gp w rp = VEHICLE_BEFORE) ∧
    ((nRobotLocalPosition gp rp).y = NReal.nan →
      IsPoseInGateN gp w rp = VEHICLE_OUTSIDE) :=
  ⟨IsPoseInGateN_total gp w rp, fun h => IsPoseInGateN_nan_outside gp w rp h⟩

/-- Witness for C8 at a concrete degenerate gate (NaN yaw): the local y
coordinate is NaN and the classification is VEHICLE_OUTSIDE. -/
theorem IsPoseInGateN_total_and_nan_w :
    (nRobotLocalPosition poseN0 robotN0).y = NReal.nan ∧
    IsPoseInGateN poseN0 (NReal.fin 10) robotN0 = VEHICLE_OUTSIDE :=
  ⟨rfl, (IsPoseInGateN_total_and_nan poseN0 (NReal.fin 10) robotN0).2 rfl⟩

end

end NavScoring
